import Mathlib

/-!
Verification development for the Briefing bet/prop valuation engine.

The definitions below are a shallow embedding of the Python sources:
  * `backend/briefing/props_dashboard.py` — `PlayerProp`, `PropsDashboard.refresh_props`,
    `_compute_prop_status`;
  * `backend/briefing/nfl_fetcher.py` — `NFLFetcherMixin.get_nfl_player_stat`;
  * `backend/briefing/base_fetcher.py` — `find_player`.

Python floats are modelled as rationals (`ℚ`), Python `None` as `Option.none`,
raised exceptions at the provider boundary as an `Option`-valued fetch, and
Python's `in` substring operator / `str.lower()` / `str.split()` as the
character-list functions `pyIn`, `pyLower`, `pyWords` below.
-/

/-- Does the character list `hay` start with `needle`? (helper for `pyIn`). -/
def pyStarts : List Char → List Char → Bool
  | [], _ => true
  | _ :: _, [] => false
  | a :: as, b :: bs => a == b && pyStarts as bs

/-- Is `needle` a contiguous sublist of the second argument? (helper for `pyIn`). -/
def pySubList (needle : List Char) : List Char → Bool
  | [] => needle.isEmpty
  | c :: t => pyStarts needle (c :: t) || pySubList needle t

/-- Python's `needle in hay` on strings: contiguous substring containment
(the empty string is contained in everything). -/
def pyIn (needle hay : String) : Bool := pySubList needle.data hay.data

/-- Python's `str.lower()` (ASCII case folding, as `Char.toLower`). -/
def pyLower (s : String) : String := String.mk (s.data.map Char.toLower)

/-- Python's `str.split()` with no separator: split on whitespace runs,
dropping empty chunks (helper, accumulator holds the current word reversed). -/
def pyWordsAux (cur : List Char) : List Char → List String
  | [] => if cur.isEmpty then [] else [String.mk cur.reverse]
  | c :: t =>
    if c.isWhitespace then
      if cur.isEmpty then pyWordsAux [] t
      else String.mk cur.reverse :: pyWordsAux [] t
    else pyWordsAux (c :: cur) t

/-- Python's `str.split()` with no separator. -/
def pyWords (s : String) : List String := pyWordsAux [] s.data

/-- One tracked wager, mirroring the `PlayerProp` dataclass of
`backend/briefing/props_dashboard.py` (the display-only string
`current_value_str`, which no claim mentions, is not modelled). -/
structure PlayerProp where
  id : Nat
  sport : String
  game_id : String
  game_label : String
  player_name : String
  team_name : String
  market_type : String
  line : ℚ
  side : String
  stake : Option ℚ := none
  odds : Option ℚ := none
  current_value : Option ℚ := none
  game_state : String := "pre"
  game_status_text : String := ""
  prop_status : String := "pending"
deriving DecidableEq, Repr

/-- The valuation engine: `_compute_prop_status` of
`backend/briefing/props_dashboard.py` (lines 283-372), deciding the settlement
status from the wager, the resolved current value and the game phase.
`1e-6` is modelled as the exact rational `1/1000000`. -/
def compute_prop_status (prop : PlayerProp) (current_value : Option ℚ)
    (game_state : String) : String :=
  match current_value with
  | none =>
    -- No stats yet
    if game_state == "post" || game_state == "final" then "unavailable" else "pending"
  | some cv =>
    let side := pyLower prop.side
    let line := prop.line
    let is_team_total := prop.market_type == "home_team_points"
      || prop.market_type == "away_team_points"
    let is_moneyline := pyIn "moneyline" prop.market_type
    let is_spread := pyIn "spread" prop.market_type
    let is_total := pyIn "total_score" prop.market_type
    if is_moneyline then
      -- winning iff the margin is strictly positive; line ignored
      if game_state == "post" || game_state == "final" then
        if cv > 0 then "won" else "lost"
      else
        if cv > 0 then "live_hit" else "live_miss"
    else if is_spread then
      let margin_with_spread := cv + line
      if |margin_with_spread| < 1/1000000 then
        if game_state == "post" || game_state == "final" then "push" else "live_push"
      else if game_state == "post" || game_state == "final" then
        if margin_with_spread > 0 then "won" else "lost"
      else
        if margin_with_spread > 0 then "live_hit" else "live_miss"
    else if is_total || is_team_total then
      if |cv - line| < 1/1000000 then
        if game_state == "post" || game_state == "final" then "push" else "live_push"
      else
        let is_hit : Bool := if side == "over" then cv > line else cv < line
        if game_state == "post" || game_state == "final" then
          if is_hit then "won" else "lost"
        else if side == "over" then
          if is_hit then "won" else "live_miss"
        else
          if is_hit then "live_hit" else "lost"
    else
      -- player props
      if game_state == "pre" || game_state == "in" then
        let is_hit : Bool := if side == "over" then cv > line else cv < line
        if is_hit then "live_hit" else "live_miss"
      else
        if |cv - line| < 1/1000000 then "push"
        else if side == "over" then
          if cv > line then "won" else "lost"
        else
          if cv < line then "won" else "lost"

/-- Claim C3: whenever the resolved current value is null the engine returns
"unavailable" exactly when the game phase is post/final, and "pending" in every
other phase, irrespective of the wager's kind, line or side. -/
theorem null_value_phase_sensitivity (p : PlayerProp) (gs : String) :
    compute_prop_status p none gs =
      if gs = "post" ∨ gs = "final" then "unavailable" else "pending" := by
  simp only [compute_prop_status, Bool.or_eq_true, beq_iff_eq]

/-- A wager with the given market type, side and line; the remaining (static)
fields are irrelevant to the valuation engine. Used to instantiate witnesses. -/
def mkProp (mt sd : String) (ln : ℚ) : PlayerProp :=
  { id := 1, sport := "nfl", game_id := "401", game_label := "AWY @ HOM",
    player_name := "P", team_name := "T", market_type := mt, line := ln, side := sd }

/-- Characterization of the moneyline branch of the engine (helper). -/
theorem compute_status_moneyline (p : PlayerProp) (cv : ℚ) (gs : String)
    (hml : pyIn "moneyline" p.market_type = true) :
    compute_prop_status p (some cv) gs =
      if cv > 0 then (if gs = "post" ∨ gs = "final" then "won" else "live_hit")
      else (if gs = "post" ∨ gs = "final" then "lost" else "live_miss") := by
  simp only [compute_prop_status, hml, Bool.or_eq_true, beq_iff_eq, if_true]
  by_cases hp : gs = "post" ∨ gs = "final" <;> by_cases hc : cv > 0 <;>
    simp [hp, hc]

/-- Characterization of the spread branch of the engine (helper). -/
theorem compute_status_spread (p : PlayerProp) (cv : ℚ) (gs : String)
    (hml : pyIn "moneyline" p.market_type = false)
    (hsp : pyIn "spread" p.market_type = true) :
    compute_prop_status p (some cv) gs =
      if |cv + p.line| < 1/1000000 then
        (if gs = "post" ∨ gs = "final" then "push" else "live_push")
      else if cv + p.line > 0 then
        (if gs = "post" ∨ gs = "final" then "won" else "live_hit")
      else
        (if gs = "post" ∨ gs = "final" then "lost" else "live_miss") := by
  simp only [compute_prop_status, hml, hsp, Bool.or_eq_true, beq_iff_eq,
    Bool.false_eq_true, if_false, if_true]
  by_cases he : |cv + p.line| < 1/1000000 <;>
    by_cases hp : gs = "post" ∨ gs = "final" <;>
      by_cases hc : cv + p.line > 0 <;>
        simp [he, hp, hc]

/-- Characterization of the totals branch (game totals and team totals) of the
engine, for a normalized over/under side (helper). -/
theorem compute_status_totals (p : PlayerProp) (cv : ℚ) (gs : String)
    (hml : pyIn "moneyline" p.market_type = false)
    (hsp : pyIn "spread" p.market_type = false)
    (htot : (pyIn "total_score" p.market_type
      || (p.market_type == "home_team_points"
          || p.market_type == "away_team_points")) = true)
    (hside : p.side = "over" ∨ p.side = "under") :
    compute_prop_status p (some cv) gs =
      if |cv - p.line| < 1/1000000 then
        (if gs = "post" ∨ gs = "final" then "push" else "live_push")
      else if gs = "post" ∨ gs = "final" then
        (if (p.side = "over" ∧ cv > p.line) ∨ (p.side = "under" ∧ cv < p.line)
          then "won" else "lost")
      else if p.side = "over" then
        (if cv > p.line then "won" else "live_miss")
      else
        (if cv < p.line then "live_hit" else "lost") := by
  have hlow : pyLower p.side = p.side := by
    rcases hside with h | h <;> rw [h] <;> decide
  rcases hside with h | h <;>
    simp only [compute_prop_status, hml, hsp, htot, hlow, h, Bool.false_eq_true,
      if_false, if_true, Bool.or_eq_true, beq_iff_eq] <;>
  · by_cases he : |cv - p.line| < 1/1000000 <;>
      by_cases hp : gs = "post" ∨ gs = "final" <;>
        by_cases hgt : cv > p.line <;> by_cases hlt : cv < p.line <;>
          simp_all

/-- Claim C1: for totals (total-score and team-total wagers) with a resolved
value: within 1e-6 of the line the status is "push" at post/final and
"live_push" otherwise, for both sides and any line; otherwise "over" hits iff
value > line and "under" hits iff value < line, giving "won"/"lost" at
post/final; while live, an "over" that hit is already "won" and otherwise
"live_miss", while an "under" not yet exceeded is "live_hit" and one whose
total cleared the line is already "lost". -/
theorem totals_engine (p : PlayerProp) (cv : ℚ) (gs : String)
    (hmt : p.market_type ∈ ["total_score", "1h_total_score", "1q_total_score",
      "home_team_points", "away_team_points"])
    (hside : p.side = "over" ∨ p.side = "under") :
    compute_prop_status p (some cv) gs =
      if |cv - p.line| < 1/1000000 then
        (if gs = "post" ∨ gs = "final" then "push" else "live_push")
      else if gs = "post" ∨ gs = "final" then
        (if (p.side = "over" ∧ cv > p.line) ∨ (p.side = "under" ∧ cv < p.line)
          then "won" else "lost")
      else if p.side = "over" then
        (if cv > p.line then "won" else "live_miss")
      else
        (if cv < p.line then "live_hit" else "lost") := by
  apply compute_status_totals p cv gs _ _ _ hside <;>
    simp only [List.mem_cons, List.mem_singleton, List.not_mem_nil, or_false] at hmt <;>
      rcases hmt with h | h | h | h | h <;> rw [h] <;> decide

/-- Witness for C1: an over total at line 45.5 with the total already at 46 in
a live game is "won"; the same wager on the under side is already "lost"; and a
team total at line 45 with value exactly 45 is "live_push" live, "push" final. -/
theorem totals_engine_witness :
    compute_prop_status (mkProp "total_score" "over" (91/2)) (some 46) "in" = "won"
    ∧ compute_prop_status (mkProp "total_score" "under" (91/2)) (some 46) "in" = "lost"
    ∧ compute_prop_status (mkProp "home_team_points" "over" 45) (some 45) "in" = "live_push"
    ∧ compute_prop_status (mkProp "home_team_points" "under" 45) (some 45) "post" = "push" := by
  refine ⟨?_, ?_, ?_, ?_⟩ <;>
  · rw [totals_engine _ _ _ (by decide) (by decide)]
    simp [mkProp, abs_lt] <;> norm_num

/-- Claim C5: for a spread wager whose value is the picked team's signed score
differential, the engine computes margin_with_spread = value + line; within
1e-6 of zero it is "push" at post/final and "live_push" otherwise; else it is
winning iff margin_with_spread > 0, giving "won"/"lost" at post/final and
"live_hit"/"live_miss" while live. -/
theorem spread_engine (p : PlayerProp) (cv : ℚ) (gs : String)
    (hmt : p.market_type ∈ ["spread", "1h_spread", "1q_spread"]) :
    compute_prop_status p (some cv) gs =
      if |cv + p.line| < 1/1000000 then
        (if gs = "post" ∨ gs = "final" then "push" else "live_push")
      else if cv + p.line > 0 then
        (if gs = "post" ∨ gs = "final" then "won" else "live_hit")
      else
        (if gs = "post" ∨ gs = "final" then "lost" else "live_miss") := by
  apply compute_status_spread <;>
    simp only [List.mem_cons, List.mem_singleton, List.not_mem_nil, or_false] at hmt <;>
      rcases hmt with h | h | h <;> rw [h] <;> decide

/-- Witness for C5: line -3.5 with margin 4 settles "won"
(margin_with_spread = 0.5 > 0) and with margin 3 settles "lost" (-0.5). -/
theorem spread_engine_witness :
    compute_prop_status (mkProp "spread" "HOM" (-7/2)) (some 4) "post" = "won"
    ∧ compute_prop_status (mkProp "spread" "HOM" (-7/2)) (some 3) "post" = "lost" := by
  refine ⟨?_, ?_⟩ <;>
  · rw [spread_engine _ _ _ (by decide)]
    simp [mkProp, abs_lt] <;> norm_num

/-- Claim C6: a moneyline wager is decided only by the signed score
differential; the stored line is ignored, and moneyline never pushes — a
margin of exactly 0 is classified as not winning ("lost" at post/final,
"live_miss" otherwise). -/
theorem moneyline_engine (p : PlayerProp) (cv : ℚ) (gs : String)
    (hmt : p.market_type ∈ ["moneyline", "1h_moneyline", "1q_moneyline"]) :
    (compute_prop_status p (some cv) gs =
      if cv > 0 then (if gs = "post" ∨ gs = "final" then "won" else "live_hit")
      else (if gs = "post" ∨ gs = "final" then "lost" else "live_miss"))
    ∧ (∀ l' : ℚ, compute_prop_status { p with line := l' } (some cv) gs
        = compute_prop_status p (some cv) gs)
    ∧ compute_prop_status p (some cv) gs ≠ "push"
    ∧ compute_prop_status p (some cv) gs ≠ "live_push" := by
  have hml : pyIn "moneyline" p.market_type = true := by
    simp only [List.mem_cons, List.mem_singleton, List.not_mem_nil, or_false] at hmt
    rcases hmt with h | h | h <;> rw [h] <;> decide
  have hchar := compute_status_moneyline p cv gs hml
  refine ⟨hchar, ?_, ?_, ?_⟩
  · intro l'
    rw [compute_status_moneyline _ cv gs (by simpa using hml), hchar]
  · rw [hchar]; split_ifs <;> simp
  · rw [hchar]; split_ifs <;> simp

/-- Witness for C6: a tied game (margin 0) on the moneyline is "lost" at
post and "live_miss" while live, never a push. -/
theorem moneyline_engine_witness :
    compute_prop_status (mkProp "moneyline" "HOM" 0) (some 0) "post" = "lost"
    ∧ compute_prop_status (mkProp "moneyline" "HOM" 0) (some 0) "in" = "live_miss" := by
  constructor
  · rw [(moneyline_engine _ 0 "post" (by decide)).1]; simp
  · rw [(moneyline_engine _ 0 "in" (by decide)).1]; simp

/-- Claim C4: at game phase post/final the engine always returns a terminal
status (won, lost, push or unavailable), never a live one, for every market
type, side, line and current value (including null). -/
theorem post_phase_terminal (p : PlayerProp) (cv : Option ℚ) (gs : String)
    (hgs : gs = "post" ∨ gs = "final") :
    compute_prop_status p cv gs ∈ ["won", "lost", "push", "unavailable"] := by
  rcases hgs with rfl | rfl
  · cases cv with
    | none => simp [compute_prop_status]
    | some cv =>
      simp only [compute_prop_status,
        show ((("post" : String) == "post") || (("post" : String) == "final")) = true
          by decide,
        show ((("post" : String) == "pre") || (("post" : String) == "in")) = false
          by decide,
        if_true, Bool.false_eq_true, if_false]
      split_ifs <;> simp
  · cases cv with
    | none => simp [compute_prop_status]
    | some cv =>
      simp only [compute_prop_status,
        show ((("final" : String) == "post") || (("final" : String) == "final")) = true
          by decide,
        show ((("final" : String) == "pre") || (("final" : String) == "in")) = false
          by decide,
        if_true, Bool.false_eq_true, if_false]
      split_ifs <;> simp

/-- Witness for C4: a concrete post-game wager settles to a terminal status. -/
theorem post_phase_terminal_witness :
    ("post" = "post" ∨ "post" = "final")
    ∧ compute_prop_status (mkProp "rushing_yards" "over" (143/2)) (some 85) "post"
        ∈ ["won", "lost", "push", "unavailable"] :=
  ⟨Or.inl rfl, post_phase_terminal _ _ _ (Or.inl rfl)⟩

/-- Python's `str.startswith` (as used for the `1q_`/`1h_` period prefixes). -/
def pyStartsWith (pre s : String) : Bool := pyStarts pre.data s.data

/-- The record a per-sport player-stat resolver returns
(`get_nfl_player_stat` and friends): `{'value': ..., 'team': ..., 'player': ...,
'display_value': ...}`, each entry possibly `None`. -/
structure StatResult where
  value : Option ℚ
  team : Option String
  player : Option String
  display_value : Option String
deriving DecidableEq, Repr

/-- One entry of `header.competitions[0].competitors` in the snapshot payload.
`score` is `none` when the raw score string cannot be parsed as a float (the
source then uses 0.0). `teamId` feeds `find_player`'s roster fallback. -/
structure Competitor where
  homeAway : String
  score : Option ℚ
  displayName : String
  teamId : Option String := none
deriving DecidableEq, Repr

/-- A raw per-athlete stat cell of the boxscore. ESPN delivers strings:
`num q` models a numeric string (Python `float()` succeeds), `fraction a b`
models an `"a/b"` made/attempts string (`float()` raises, splitting on `/`
works), `bad` models anything unparseable. -/
inductive RawStat where
  | num (q : ℚ)
  | fraction (a b : ℚ)
  | bad
deriving DecidableEq, Repr

/-- One athlete row of a boxscore statistics category. -/
structure Athlete where
  displayName : String
  stats : List RawStat
deriving DecidableEq, Repr

/-- One statistics category (passing / rushing / receiving / ...) of a team's
boxscore block, with its column `keys` and `labels` metadata. -/
structure StatCategory where
  name : String
  keys : List String
  labels : List String
  athletes : List Athlete
deriving DecidableEq, Repr

/-- One team's boxscore block (`boxscore.players[i]`); `team_name` is the
team `displayName` (with the `name` fallback already applied). -/
structure TeamBlock where
  team_name : String
  statistics : List StatCategory
deriving DecidableEq, Repr

/-- One scoring play of the snapshot (`scoringPlays[i]`), with the fields the
first/last-touchdown resolver reads. -/
structure ScoringPlay where
  scoringTypeName : String
  typeText : String
  text : String
deriving DecidableEq, Repr

/-- The normalized game snapshot payload: the parts of the ESPN summary JSON
that `refresh_props`, `get_nfl_player_stat` and `find_player` read. -/
structure Stats where
  game_state : String := "unknown"
  game_status_detail : String := ""
  competitors : List Competitor := []
  home_linescores : List ℚ := []
  away_linescores : List ℚ := []
  boxscore_players : List TeamBlock := []
  scoringPlays : List ScoringPlay := []
deriving DecidableEq, Repr

/-- Score/team-name extraction of `refresh_props` (lines 119-149): walk the
competitors, routing on `homeAway == "home"`; an unparseable score counts as
0.0; later entries overwrite earlier ones. Returns
(home_score, away_score, home_team_name, away_team_name). -/
def extractScores (comps : List Competitor) : ℚ × ℚ × String × String :=
  comps.foldl
    (fun acc c =>
      let s := c.score.getD 0
      if c.homeAway == "home" then (s, acc.2.1, c.displayName, acc.2.2.2)
      else (acc.1, s, acc.2.2.1, c.displayName))
    (0, 0, "", "")

/-- `get_period_score` closure of `refresh_props`: the period's linescore
entry, or 0.0 when the period has not been played. -/
def get_period_score (home_ls away_ls : List ℚ) (period_idx : Nat)
    (is_home : Bool) : ℚ :=
  let target := if is_home then home_ls else away_ls
  (target.get? period_idx).getD 0

/-- `get_half_score` closure of `refresh_props`: first half = Q1 + Q2. -/
def get_half_score (home_ls away_ls : List ℚ) (is_home : Bool) : ℚ :=
  get_period_score home_ls away_ls 0 is_home
    + get_period_score home_ls away_ls 1 is_home

/-- A per-sport player-stat resolver (`get_nfl_player_stat` /
`get_nba_player_stat` / `get_mlb_player_stat` with a pre-fetched payload):
(player name, market type, payload) to optional result record.
`refresh_props` dispatches on the dashboard's sport; the embedding is
parametrized by the dispatched resolver. -/
def Resolver : Type := String → String → Stats → Option StatResult

/-- The team-bet market types of `refresh_props` (line 171-174). -/
def teamMarkets : List String :=
  ["moneyline", "spread", "total_score",
   "1h_moneyline", "1h_spread", "1h_total_score",
   "1q_moneyline", "1q_spread", "1q_total_score",
   "home_team_points", "away_team_points"]

/-- Lines 194-209 of `refresh_props`: the picked-team margin for spread and
moneyline — away-team perspective (away − home) exactly when the lowercased
stored side is a substring of the lowercased away team display name, home-team
perspective (home − away) in every other case. -/
def teamMargin (sd away_team_name : String) (h_s a_s : ℚ) : ℚ :=
  if pyIn (pyLower sd) (pyLower away_team_name) then a_s - h_s else h_s - a_s

/-- The team-bet value computation of `refresh_props` (lines 176-222):
select full-game, first-half or first-quarter scores by market prefix, then
dispatch on the market substring (total first, then spread, then moneyline,
then single-team totals). Returns the value only; the team-name autofill of
the single-team branches is `teamBetRename` below. -/
def teamBetValue (stats : Stats) (mt sd : String) : Option ℚ :=
  let es := extractScores stats.competitors
  let home_score := es.1
  let away_score := es.2.1
  let away_team_name := es.2.2.2
  let hs_as : ℚ × ℚ :=
    if pyStartsWith "1q_" mt then
      (get_period_score stats.home_linescores stats.away_linescores 0 true,
       get_period_score stats.home_linescores stats.away_linescores 0 false)
    else if pyStartsWith "1h_" mt then
      (get_half_score stats.home_linescores stats.away_linescores true,
       get_half_score stats.home_linescores stats.away_linescores false)
    else (home_score, away_score)
  let h_s := hs_as.1
  let a_s := hs_as.2
  if pyIn "total_score" mt then some (h_s + a_s)
  else if pyIn "spread" mt then some (teamMargin sd away_team_name h_s a_s)
  else if pyIn "moneyline" mt then some (teamMargin sd away_team_name h_s a_s)
  else if mt == "home_team_points" then some home_score
  else if mt == "away_team_points" then some away_score
  else none

/-- The team-name autofill of the single-team-total branches of
`refresh_props` (lines 211-222), split out of the value computation: the two
market branches are exclusive, so computing the value and the rename
separately is equivalent to the source's single if/elif chain. -/
def teamBetRename (stats : Stats) (p : PlayerProp) : PlayerProp :=
  let es := extractScores stats.competitors
  if p.market_type == "home_team_points" && p.team_name == "" then
    { p with team_name := es.2.2.1 }
  else if p.market_type == "away_team_points" && p.team_name == "" then
    { p with team_name := es.2.2.2 }
  else p

/-- Lines 249-263 of `refresh_props`: copy the canonical matched team/player
names from a resolver result back onto the wager (the team only when the
stored name is empty or the "-" placeholder). -/
def applyResultRename (result : StatResult) (p : PlayerProp) : PlayerProp :=
  let p1 :=
    if (result.team.getD "") != "" && (p.team_name == "" || p.team_name == "-")
    then { p with team_name := result.team.getD "" } else p
  if (result.player.getD "") != ""
  then { p1 with player_name := result.player.getD "" } else p1

/-- The common tail of the per-prop refresh (lines 268-280): store the value —
defaulting a missing value to 0.0 for NFL player props while the game is
live — the game phase and status text, and the status computed by the engine
from the raw resolved value (the source passes `value`, not the defaulted
`p.current_value`, to `_compute_prop_status`). -/
def finishProp (sport : String) (stats : Stats) (p : PlayerProp)
    (value : Option ℚ) : PlayerProp :=
  let game_state := stats.game_state
  let current_value :=
    if value.isNone && sport == "nfl" && game_state == "in"
        && !((["moneyline", "spread", "total_score"] : List String).contains
              p.market_type)
    then some 0 else value
  { p with current_value := current_value,
           game_state := game_state,
           game_status_text := stats.game_status_detail,
           prop_status := compute_prop_status p value game_state }

/-- The per-prop body of the refresh loop of `PropsDashboard.refresh_props`
(lines 167-280): team bets read scores directly, player props dispatch to the
sport's resolver, then the common tail stores value, phase and status. -/
def updateProp (sport : String) (resolver : Resolver) (stats : Stats)
    (p : PlayerProp) : PlayerProp :=
  if p.market_type ∈ teamMarkets then
    finishProp sport stats (teamBetRename stats p)
      (teamBetValue stats p.market_type p.side)
  else
    match resolver p.player_name p.market_type stats with
    | none => finishProp sport stats p none
    | some result =>
      finishProp sport stats (applyResultRename result p) result.value

/-- One prop's refresh given the (pure) fetch outcome for its game: on fetch
failure (the `except` arm of lines 99-113, modelled as `none`) the prop is
marked unknown/unavailable and keeps its previous value; otherwise it is fully
updated from the snapshot. -/
def refreshOne (sport : String) (resolver : Resolver) (fetched : Option Stats)
    (p : PlayerProp) : PlayerProp :=
  match fetched with
  | none => { p with game_state := "unknown", prop_status := "unavailable" }
  | some stats => updateProp sport resolver stats p

/-- `PropsDashboard.refresh_props` (lines 87-280). The source groups props by
`game_id` and fetches one snapshot per group purely to amortize the fetch;
with the provider modelled as a pure function of the game id and each
iteration mutating only its own prop, the grouped in-place loop is exactly the
pointwise map below. -/
def refresh_props (sport : String) (fetch : String → Option Stats)
    (resolver : Resolver) (props : List PlayerProp) : List PlayerProp :=
  props.map (fun p => refreshOne sport resolver (fetch p.game_id) p)

/-- The raw value the refresh loop resolves for one prop (the `value` local of
lines 167-267): team bets read scores, player props ask the sport resolver. -/
def resolvedValue (resolver : Resolver) (stats : Stats) (p : PlayerProp) :
    Option ℚ :=
  if p.market_type ∈ teamMarkets then teamBetValue stats p.market_type p.side
  else (resolver p.player_name p.market_type stats).bind (fun r => r.value)

/-- The engine reads only side, line and market type from the wager (helper). -/
theorem compute_prop_status_congr (p q : PlayerProp) (cv : Option ℚ)
    (gs : String) (h1 : p.side = q.side) (h2 : p.line = q.line)
    (h3 : p.market_type = q.market_type) :
    compute_prop_status p cv gs = compute_prop_status q cv gs := by
  cases cv with
  | none => rfl
  | some cv => simp only [compute_prop_status, h1, h2, h3]

/-- `finishProp` writes only the derived fields (helper). -/
theorem finishProp_static (sport : String) (stats : Stats) (p : PlayerProp)
    (v : Option ℚ) :
    (finishProp sport stats p v).market_type = p.market_type
    ∧ (finishProp sport stats p v).side = p.side
    ∧ (finishProp sport stats p v).line = p.line
    ∧ (finishProp sport stats p v).game_id = p.game_id
    ∧ (finishProp sport stats p v).player_name = p.player_name
    ∧ (finishProp sport stats p v).team_name = p.team_name := by
  refine ⟨rfl, rfl, rfl, rfl, rfl, rfl⟩

/-- The stored value after `finishProp` (helper, definitional). -/
theorem finishProp_value (sport : String) (stats : Stats) (p : PlayerProp)
    (v : Option ℚ) :
    (finishProp sport stats p v).current_value =
      if v.isNone && sport == "nfl" && stats.game_state == "in"
          && !((["moneyline", "spread", "total_score"] : List String).contains
                p.market_type)
      then some 0 else v := rfl

/-- The stored status after `finishProp` (helper, definitional). -/
theorem finishProp_status (sport : String) (stats : Stats) (p : PlayerProp)
    (v : Option ℚ) :
    (finishProp sport stats p v).prop_status
      = compute_prop_status p v stats.game_state := rfl

/-- The team-total rename touches only `team_name` (helper). -/
theorem teamBetRename_static (stats : Stats) (p : PlayerProp) :
    (teamBetRename stats p).market_type = p.market_type
    ∧ (teamBetRename stats p).side = p.side
    ∧ (teamBetRename stats p).line = p.line
    ∧ (teamBetRename stats p).game_id = p.game_id
    ∧ (teamBetRename stats p).player_name = p.player_name := by
  unfold teamBetRename
  split_ifs <;> simp

/-- The resolver-result rename touches only `team_name`/`player_name`
(helper). -/
theorem applyResultRename_static (result : StatResult) (p : PlayerProp) :
    (applyResultRename result p).market_type = p.market_type
    ∧ (applyResultRename result p).side = p.side
    ∧ (applyResultRename result p).line = p.line
    ∧ (applyResultRename result p).game_id = p.game_id := by
  unfold applyResultRename
  split_ifs <;> simp

/-- The value stored by one prop update, as a function of the resolved raw
value and the NFL live default (helper). -/
theorem updateProp_value (sport : String) (r : Resolver) (st : Stats)
    (p : PlayerProp) :
    (updateProp sport r st p).current_value =
      (if (resolvedValue r st p).isNone && sport == "nfl"
          && st.game_state == "in"
          && !((["moneyline", "spread", "total_score"] : List String).contains
                p.market_type)
       then some 0 else resolvedValue r st p) := by
  by_cases h : p.market_type ∈ teamMarkets
  · rw [updateProp, if_pos h, finishProp_value, (teamBetRename_static st p).1,
      resolvedValue, if_pos h]
  · rw [updateProp, if_neg h, resolvedValue, if_neg h]
    cases hr : r p.player_name p.market_type st with
    | none => rw [finishProp_value]; rfl
    | some result =>
      rw [finishProp_value, (applyResultRename_static result p).1]
      simp

/-- The status stored by one prop update, as the engine applied to the
resolved raw value (helper). -/
theorem updateProp_status (sport : String) (r : Resolver) (st : Stats)
    (p : PlayerProp) :
    (updateProp sport r st p).prop_status
      = compute_prop_status p (resolvedValue r st p) st.game_state := by
  by_cases h : p.market_type ∈ teamMarkets
  · rw [updateProp, if_pos h, finishProp_status, resolvedValue, if_pos h]
    exact compute_prop_status_congr _ _ _ _ (teamBetRename_static st p).2.1
      (teamBetRename_static st p).2.2.1 (teamBetRename_static st p).1
  · rw [updateProp, if_neg h, resolvedValue, if_neg h]
    cases hr : r p.player_name p.market_type st with
    | none => rw [finishProp_status]; simp
    | some result =>
      rw [finishProp_status]
      exact compute_prop_status_congr _ _ _ _
        (applyResultRename_static result p).2.1
        (applyResultRename_static result p).2.2.1
        (applyResultRename_static result p).1

/-- One prop update never changes market type, side, line or game id
(helper). -/
theorem updateProp_static (sport : String) (r : Resolver) (st : Stats)
    (p : PlayerProp) :
    (updateProp sport r st p).market_type = p.market_type
    ∧ (updateProp sport r st p).side = p.side
    ∧ (updateProp sport r st p).line = p.line
    ∧ (updateProp sport r st p).game_id = p.game_id := by
  by_cases h : p.market_type ∈ teamMarkets
  · rw [updateProp, if_pos h]
    refine ⟨?_, ?_, ?_, ?_⟩ <;> rw [finishProp]
    · exact (teamBetRename_static st p).1
    · exact (teamBetRename_static st p).2.1
    · exact (teamBetRename_static st p).2.2.1
    · exact (teamBetRename_static st p).2.2.2.1
  · rw [updateProp, if_neg h]
    cases hr : r p.player_name p.market_type st with
    | none => exact ⟨rfl, rfl, rfl, rfl⟩
    | some result =>
      refine ⟨?_, ?_, ?_, ?_⟩ <;> rw [finishProp]
      · exact (applyResultRename_static result p).1
      · exact (applyResultRename_static result p).2.1
      · exact (applyResultRename_static result p).2.2.1
      · exact (applyResultRename_static result p).2.2.2

/-- Claim C2 (amended): for a player-prop wager (not a team-bet market), the
stored `current_value` after an update is null iff the sport resolver returned
no value AND the NFL live-game default did not apply; the source intentionally
stores 0.0 instead of null for an NFL wager whose game is in progress when the
player has no recorded stat yet. -/
theorem null_value_iff_not_found (sport : String) (resolver : Resolver)
    (stats : Stats) (p : PlayerProp) (hmt : p.market_type ∉ teamMarkets) :
    (updateProp sport resolver stats p).current_value = none ↔
      ((resolver p.player_name p.market_type stats).bind (fun r => r.value)
          = none
        ∧ ¬(sport = "nfl" ∧ stats.game_state = "in")) := by
  have hv : resolvedValue resolver stats p
      = (resolver p.player_name p.market_type stats).bind (fun r => r.value) := by
    unfold resolvedValue
    rw [if_neg hmt]
  have hsmall :
      (["moneyline", "spread", "total_score"] : List String).contains
        p.market_type = false := by
    by_contra hc
    rw [Bool.not_eq_false] at hc
    have hmem : p.market_type
        ∈ (["moneyline", "spread", "total_score"] : List String) := by
      simpa using hc
    apply hmt
    simp only [List.mem_cons, List.mem_singleton, List.not_mem_nil,
      or_false] at hmem
    rcases hmem with h | h | h <;> rw [h] <;> decide
  rw [updateProp_value, hv, hsmall]
  by_cases h1 : (resolver p.player_name p.market_type stats).bind
      (fun r => r.value) = none <;>
    by_cases h2 : sport = "nfl" <;>
      by_cases h3 : stats.game_state = "in" <;>
        simp [h1, h2, h3, Option.isNone_iff_eq_none]

/-- A live NFL snapshot whose boxscore holds nothing about the subject. -/
def statsLiveNfl : Stats := { game_state := "in", game_status_detail := "5:09 - 2nd" }

/-- A resolver that never finds the subject (player absent from the snapshot). -/
def emptyResolver : Resolver := fun _ _ _ => none

/-- A rushing-yards wager with an integer line (for concrete evaluation). -/
def rushProp : PlayerProp :=
  { mkProp "rushing_yards" "over" 71 with player_name := "McCaffrey" }

/-- Counterexample to claim C2 as stated: on an NFL dashboard with the game in
progress, a player-prop wager whose resolver lookup returns not-found is
stored with current_value = 0.0, not null (the deliberate live default of
lines 271-272 of refresh_props). -/
theorem null_value_counterexample :
    emptyResolver rushProp.player_name rushProp.market_type statsLiveNfl = none
    ∧ (updateProp "nfl" emptyResolver statsLiveNfl rushProp).current_value
        = some 0 := by
  refine ⟨rfl, ?_⟩
  rw [updateProp_value]
  decide

/-- Witness for the amended C2: for a non-NFL dashboard the equivalence is
exercised at a concrete not-found lookup. -/
theorem null_value_iff_not_found_witness :
    (updateProp "nba" emptyResolver statsLiveNfl rushProp).current_value = none
      ↔ ((emptyResolver rushProp.player_name rushProp.market_type
            statsLiveNfl).bind (fun r => r.value) = none
          ∧ ¬("nba" = "nfl" ∧ statsLiveNfl.game_state = "in")) :=
  null_value_iff_not_found "nba" emptyResolver statsLiveNfl rushProp (by decide)

/-- Claim C7: partition isolation of the batch refresh — a wager whose game's
snapshot fetch fails is set to game_state = "unknown" and prop_status =
"unavailable" with its previous current_value (and every static field) left in
place, while every wager whose game's fetch succeeds is updated normally; the
refresh itself is total, so no fetch failure aborts the batch. -/
theorem partition_isolation (sport : String) (fetch : String → Option Stats)
    (resolver : Resolver) (props : List PlayerProp) (i : Nat) (p : PlayerProp)
    (hi : props.get? i = some p) :
    ∃ q, (refresh_props sport fetch resolver props).get? i = some q
      ∧ (fetch p.game_id = none →
          q.game_state = "unknown" ∧ q.prop_status = "unavailable"
          ∧ q.current_value = p.current_value ∧ q.player_name = p.player_name
          ∧ q.team_name = p.team_name ∧ q.line = p.line ∧ q.side = p.side
          ∧ q.market_type = p.market_type)
      ∧ (∀ s, fetch p.game_id = some s → q = updateProp sport resolver s p) := by
  refine ⟨refreshOne sport resolver (fetch p.game_id) p, ?_, ?_, ?_⟩
  · rw [refresh_props, List.get?_map, hi, Option.map_some']
  · intro hf
    simp [refreshOne, hf]
  · intro s hf
    simp only [refreshOne, hf]

/-- The healthy snapshot of the demo game "gB": Lions at Bears, 17-21, Q3. -/
def statsGameB : Stats :=
  { game_state := "in", game_status_detail := "10:00 - 3rd",
    competitors :=
      [ { homeAway := "home", score := some 21, displayName := "Chicago Bears" },
        { homeAway := "away", score := some 17, displayName := "Detroit Lions" } ] }

/-- A demo provider: game "gB" has a snapshot, every other fetch fails. -/
def demoFetch : String → Option Stats :=
  fun gid => if gid == "gB" then some statsGameB else none

/-- A demo resolver that finds McCaffrey at 85 rushing yards. -/
def mcResolver : Resolver := fun _ _ _ =>
  some { value := some 85, team := some "San Francisco 49ers",
         player := some "Christian McCaffrey", display_value := none }

/-- A wager on the failing demo game "gA", carrying a previous value. -/
def propGameA : PlayerProp :=
  { mkProp "receiving_yards" "over" 45 with
    game_id := "gA"
    current_value := some 30 }

/-- A wager on the healthy demo game "gB". -/
def propGameB : PlayerProp :=
  { mkProp "rushing_yards" "over" 71 with
    game_id := "gB"
    player_name := "McCaffrey" }

/-- Witness for C7: in a two-game batch where game "gA"'s fetch fails, its
wager is degraded to unavailable with its old value kept, while game "gB"'s
wager still resolves to a live status. -/
theorem partition_isolation_witness :
    (∃ q, (refresh_props "nfl" demoFetch mcResolver
          [propGameA, propGameB]).get? 0 = some q
      ∧ (demoFetch propGameA.game_id = none →
          q.game_state = "unknown" ∧ q.prop_status = "unavailable"
          ∧ q.current_value = propGameA.current_value
          ∧ q.player_name = propGameA.player_name
          ∧ q.team_name = propGameA.team_name ∧ q.line = propGameA.line
          ∧ q.side = propGameA.side ∧ q.market_type = propGameA.market_type)
      ∧ (∀ s, demoFetch propGameA.game_id = some s →
          q = updateProp "nfl" mcResolver s propGameA))
    ∧ (refresh_props "nfl" demoFetch mcResolver [propGameA, propGameB]).map
        (fun q => (q.prop_status, q.current_value))
      = [("unavailable", some 30), ("live_hit", some 85)] := by
  constructor
  · exact partition_isolation "nfl" demoFetch mcResolver
      [propGameA, propGameB] 0 propGameA rfl
  · decide

/-- Claim C10: for spread and moneyline wagers the refresh computes the margin
from the away team's perspective (away − home) exactly when the lowercased
side string is a substring of the lowercased away team name, and from the home
team's perspective in every other case; the home team name itself is never
substring-tested (two snapshots differing only in the home team name give the
same value). -/
theorem side_match_margin (sport : String) (resolver : Resolver)
    (stats stats' : Stats) (p : PlayerProp)
    (hmt : p.market_type = "spread" ∨ p.market_type = "moneyline")
    (h a : ℚ) (hn hn' an : String)
    (hs : extractScores stats.competitors = (h, a, hn, an))
    (hs' : extractScores stats'.competitors = (h, a, hn', an)) :
    (updateProp sport resolver stats p).current_value
        = some (teamMargin p.side an h a)
    ∧ (updateProp sport resolver stats' p).current_value
        = some (teamMargin p.side an h a) := by
  have hmem : p.market_type ∈ teamMarkets := by
    rcases hmt with hmt | hmt <;> rw [hmt] <;> decide
  have key : ∀ (st : Stats) (hname : String),
      extractScores st.competitors = (h, a, hname, an) →
      (updateProp sport resolver st p).current_value
        = some (teamMargin p.side an h a) := by
    intro st hname hse
    rw [updateProp_value]
    have hval : resolvedValue resolver st p
        = some (teamMargin p.side an h a) := by
      unfold resolvedValue
      rw [if_pos hmem]
      unfold teamBetValue
      rw [hse]
      rcases hmt with hmt | hmt <;> rw [hmt] <;>
        simp [pyStartsWith, pyStarts, pyIn, pySubList]
    rw [hval]
    simp
  exact ⟨key stats hn hs, key stats' hn' hs'⟩

/-- Witness for C10: side "Green Bay Packers" matches neither team of the
Lions-at-Bears snapshot, so the margin silently defaults to the home
perspective: 21 − 17 = 4. -/
theorem side_match_margin_witness :
    (updateProp "nfl" emptyResolver statsGameB
        (mkProp "spread" "Green Bay Packers" 3)).current_value
      = some (teamMargin (mkProp "spread" "Green Bay Packers" 3).side
          "Detroit Lions" 21 17)
    ∧ teamMargin (mkProp "spread" "Green Bay Packers" 3).side
        "Detroit Lions" 21 17 = 4 := by
  constructor
  · exact (side_match_margin "nfl" emptyResolver statsGameB statsGameB
      (mkProp "spread" "Green Bay Packers" 3) (Or.inl rfl) 21 17
      "Chicago Bears" "Chicago Bears" "Detroit Lions" (by decide) (by decide)).1
  · rw [teamMargin]
    rw [show pyIn (pyLower (mkProp "spread" "Green Bay Packers" 3).side)
        (pyLower "Detroit Lions") = false from by decide]
    norm_num

/-- `find_player` of `backend/briefing/base_fetcher.py` (lines 586-655):
case-insensitive substring search over every boxscore statistics category
(first match wins), then a roster fallback over the header competitors.
`rosterOf` models `fetch_team_roster` as the list of athlete display names per
team id. Returns (display_name, team_name). -/
def find_player (rosterOf : String → List String) (data : Stats)
    (player_name : String) : Option (String × String) :=
  let target := pyLower player_name
  let fromBox :=
    data.boxscore_players.findSome? fun tb =>
      tb.statistics.findSome? fun cat =>
        cat.athletes.findSome? fun ath =>
          if pyIn target (pyLower ath.displayName)
          then some (ath.displayName, tb.team_name) else none
  match fromBox with
  | some r => some r
  | none =>
    data.competitors.findSome? fun comp =>
      match comp.teamId with
      | none => none
      | some tid =>
        (rosterOf tid).findSome? fun dn =>
          if pyIn target (pyLower dn) then some (dn, comp.displayName)
          else none

/-- The standard column mapping of `get_nfl_player_stat` (lines 129-159):
market type to (category name, acceptable column keys/labels). -/
def stat_mapping (market_type : String) : Option (String × List String) :=
  match market_type with
  | "passing_yards" => some ("passing", ["passingYards", "passYds"])
  | "passing_completions" =>
      some ("passing", ["completions/passingAttempts", "C/ATT"])
  | "passing_attempts" =>
      some ("passing", ["completions/passingAttempts", "C/ATT"])
  | "passing_touchdowns" => some ("passing", ["passingTouchdowns", "TD"])
  | "passing_interceptions" => some ("passing", ["interceptions", "INT"])
  | "longest_passing_completion" => some ("passing", ["longPassing", "LNG"])
  | "rushing_yards" => some ("rushing", ["rushingYards", "rushYds"])
  | "rushing_attempts" => some ("rushing", ["rushingAttempts", "CAR"])
  | "rushing_touchdowns" => some ("rushing", ["rushingTouchdowns", "TD"])
  | "longest_rush" => some ("rushing", ["longRushing", "LNG"])
  | "receiving_yards" => some ("receiving", ["receivingYards", "recYds"])
  | "receptions" => some ("receiving", ["receptions", "REC"])
  | "receiving_touchdowns" => some ("receiving", ["receivingTouchdowns", "TD"])
  | "longest_reception" => some ("receiving", ["longReception", "LNG"])
  | "sacks" => some ("defensive", ["sacks", "SACK"])
  | "tackles_assists" => some ("defensive", ["totalTackles", "TOT"])
  | "tackle_assists" => some ("defensive", ["assists", "AST"])
  | "field_goals_made" => some ("kicking", ["fieldGoalsMade", "FG"])
  | "extra_points_made" => some ("kicking", ["extraPointsMade", "XP"])
  | "kicking_points" => some ("kicking", ["points", "PTS"])
  | _ => none

/-- Lines 184-205 of `get_nfl_player_stat`: locate the target column index by
key first, then by label. -/
def findTargetIndex (keys labels targets : List String) : Option Nat :=
  match keys.findIdx? (fun k => targets.contains k) with
  | some i => some i
  | none => labels.findIdx? (fun l => targets.contains l)

/-- Lines 217-247 of `get_nfl_player_stat`: one raw stat cell to a value.
Made/attempts strings yield the numerator (the denominator for
passing_attempts); every other market needs Python `float()` to succeed, so a
fraction or unparseable cell is skipped. -/
def rawStatValue (market_type : String) (raw : RawStat) : Option ℚ :=
  match raw with
  | RawStat.num q => some q
  | RawStat.fraction a b =>
    if market_type == "passing_completions" then some a
    else if market_type == "passing_attempts" then some b
    else if market_type == "field_goals_made"
        || market_type == "extra_points_made" then some a
    else none
  | RawStat.bad => none

/-- The standard-column branch of `get_nfl_player_stat` (lines 126-249): walk
the team blocks, skip categories whose name differs from the group, locate the
target column, and return the first substring-matching athlete whose cell
yields a value. -/
def nflStandardStat (data : Stats) (player_name market_type : String) :
    Option StatResult :=
  match stat_mapping market_type with
  | none => none
  | some gk =>
    let target := pyLower player_name
    data.boxscore_players.findSome? fun tb =>
      tb.statistics.findSome? fun cat =>
        if cat.name != gk.1 then none
        else
          match findTargetIndex cat.keys cat.labels gk.2 with
          | none => none
          | some idx =>
            cat.athletes.findSome? fun ath =>
              if !(pyIn target (pyLower ath.displayName)) then none
              else
                match ath.stats.get? idx with
                | none => none
                | some raw =>
                  match rawStatValue market_type raw with
                  | none => none
                  | some v =>
                    some { value := some v, team := some tb.team_name,
                           player := some ath.displayName,
                           display_value := none }

/-- The touchdown filter of the event-based branch (lines 87-93). -/
def tdPlays (data : Stats) : List ScoringPlay :=
  data.scoringPlays.filter fun play =>
    pyIn "touchdown" (pyLower play.scoringTypeName)
      || pyIn "td" (pyLower play.typeText)

/-- The name-in-description check of the event-based branch (lines 112-118):
full lowercased display name or its last word. Python's `split()[-1]` raises
IndexError when the display name has no words; the embedding returns the empty
word there and the theorems assume a word exists. -/
def tdHit (display_name : String) (play : ScoringPlay) : Bool :=
  let p_name := pyLower display_name
  let last_name := (pyWords p_name).getLast?.getD ""
  pyIn p_name (pyLower play.text) || pyIn last_name (pyLower play.text)

/-- `get_nfl_player_stat` of `backend/briefing/nfl_fetcher.py` (lines 23-249)
with a pre-fetched payload. The composite markets' recursive calls always land
in the standard branch and are inlined as such; `rosterOf` feeds
`find_player`'s roster fallback (the source re-fetches the same payload by
event id, which the pure fetch model makes the identity). -/
def get_nfl_player_stat (rosterOf : String → List String) (data : Stats)
    (player_name market_type : String) : Option StatResult :=
  if market_type == "rushing_receiving_yards" then
    let rush := nflStandardStat data player_name "rushing_yards"
    let rcv := nflStandardStat data player_name "receiving_yards"
    let val := ((rush.bind fun r => r.value).getD 0)
      + ((rcv.bind fun r => r.value).getD 0)
    match rush.orElse (fun _ => rcv) with
    | some base => some { value := some val, team := base.team,
                          player := base.player, display_value := none }
    | none => none
  else if market_type == "passing_rushing_yards" then
    let pas := nflStandardStat data player_name "passing_yards"
    let rush := nflStandardStat data player_name "rushing_yards"
    let val := ((pas.bind fun r => r.value).getD 0)
      + ((rush.bind fun r => r.value).getD 0)
    match pas.orElse (fun _ => rush) with
    | some base => some { value := some val, team := base.team,
                          player := base.player, display_value := none }
    | none => none
  else if market_type == "anytime_touchdowns" then
    let rush_td := nflStandardStat data player_name "rushing_touchdowns"
    let rec_td := nflStandardStat data player_name "receiving_touchdowns"
    let val := ((rush_td.bind fun r => r.value).getD 0)
      + ((rec_td.bind fun r => r.value).getD 0)
    match rush_td.orElse (fun _ => rec_td) with
    | some base => some { value := some val, team := base.team,
                          player := base.player, display_value := none }
    | none =>
      match find_player rosterOf data player_name with
      | some f => some { value := some 0, team := some f.2,
                         player := some f.1, display_value := none }
      | none => none
  else if market_type == "first_touchdown"
      || market_type == "last_touchdown" then
    match tdPlays data with
    | [] =>
      match find_player rosterOf data player_name with
      | some f => some { value := some 0, team := some f.2,
                         player := some f.1, display_value := none }
      | none => none
    | p0 :: rest =>
      let targetPlay := if market_type == "first_touchdown" then p0
        else ((p0 :: rest).getLast?).getD p0
      match find_player rosterOf data player_name with
      | none => none
      | some f =>
        some { value := some (if tdHit f.1 targetPlay then 1 else 0),
               team := some f.2, player := some f.1, display_value := none }
  else
    nflStandardStat data player_name market_type

/-- Claim C8 (amended): for a first/last-touchdown request, provided the
player finder matches the subject, the resolver filters the ordered scoring
events to touchdowns, picks the first or last, and returns 1.0 iff the
subject's full or last name appears in that event's description — never
not-found once the finder succeeds — and 0.0 annotated with the subject's
team when no qualifying event has occurred yet. When the finder cannot match
the subject the result is not-found even with qualifying events present (see
the counterexample). -/
theorem event_stat_resolution (rosterOf : String → List String) (data : Stats)
    (player_name market_type : String)
    (hmt : market_type = "first_touchdown" ∨ market_type = "last_touchdown")
    (dn tn : String)
    (hf : find_player rosterOf data player_name = some (dn, tn))
    (hwords : pyWords (pyLower dn) ≠ []) :
    get_nfl_player_stat rosterOf data player_name market_type =
      some { value := some (match tdPlays data with
               | [] => 0
               | p0 :: rest =>
                   if tdHit dn (if market_type == "first_touchdown" then p0
                     else ((p0 :: rest).getLast?).getD p0) then 1 else 0),
             team := some tn, player := some dn, display_value := none } := by
  rcases hmt with rfl | rfl <;>
    cases htd : tdPlays data with
    | nil => simp [get_nfl_player_stat, htd, hf, beq_iff_eq]
    | cons p0 rest => simp [get_nfl_player_stat, htd, hf, beq_iff_eq]

/-- A snapshot with one touchdown play but an empty boxscore and header. -/
def statsTdOnly : Stats :=
  { game_state := "in",
    scoringPlays :=
      [ { scoringTypeName := "Touchdown", typeText := "Rushing TD",
          text := "Christian McCaffrey 6 Yd Run" } ] }

/-- Counterexample to claim C8 as stated: a qualifying touchdown event exists,
yet the resolver returns not-found, because the player finder cannot match the
subject anywhere in the snapshot (lines 108-110: `if not finder: return
None`). -/
theorem event_stat_counterexample :
    tdPlays statsTdOnly ≠ []
    ∧ get_nfl_player_stat (fun _ => []) statsTdOnly "Jihad Ward"
        "first_touchdown" = none := by
  constructor
  · decide
  · decide

/-- A snapshot where the finder succeeds: McCaffrey in the rushing boxscore
and the game's only touchdown description naming him. -/
def statsMc : Stats :=
  { game_state := "in",
    boxscore_players :=
      [ { team_name := "San Francisco 49ers",
          statistics :=
            [ { name := "rushing", keys := ["rushingYards"], labels := ["YDS"],
                athletes :=
                  [ { displayName := "Christian McCaffrey",
                      stats := [RawStat.num 85] } ] } ] } ],
    scoringPlays :=
      [ { scoringTypeName := "Touchdown", typeText := "Rushing TD",
          text := "Christian McCaffrey 6 Yd Run" } ] }

/-- Witness for C8: with the finder matching McCaffrey and one touchdown play
naming him, first_touchdown resolves to 1.0 with his team and canonical
name. -/
theorem event_stat_resolution_witness :
    find_player (fun _ => []) statsMc "McCaffrey"
      = some ("Christian McCaffrey", "San Francisco 49ers")
    ∧ get_nfl_player_stat (fun _ => []) statsMc "McCaffrey" "first_touchdown"
      = some { value := some 1, team := some "San Francisco 49ers",
               player := some "Christian McCaffrey", display_value := none } := by
  refine ⟨by decide, ?_⟩
  rw [event_stat_resolution (fun _ => []) statsMc "McCaffrey" "first_touchdown"
    (Or.inl rfl) "Christian McCaffrey" "San Francisco 49ers" (by decide)
    (by decide)]
  decide

/-- Refresh never changes a wager's game id (helper). -/
theorem refreshOne_game_id (sport : String) (r : Resolver)
    (f : Option Stats) (p : PlayerProp) :
    (refreshOne sport r f p).game_id = p.game_id := by
  cases f with
  | none => rfl
  | some s => exact (updateProp_static sport r s p).2.2.2

/-- Claim C9 (amended): refresh is idempotent against an unchanged snapshot
provided the resolver's value is stable under the canonical player-name
rewrite performed by the first run — true for team bets (the value ignores
the player name) and for simple single-category lookups; composite statistics
can violate it (see the counterexample). -/
theorem refresh_idempotent_stable (sport : String)
    (fetch : String → Option Stats) (resolver : Resolver)
    (props : List PlayerProp)
    (hstable : ∀ p ∈ props, ∀ s, fetch p.game_id = some s →
      p.market_type ∉ teamMarkets →
      (resolver (updateProp sport resolver s p).player_name
          p.market_type s).bind (fun r => r.value)
        = (resolver p.player_name p.market_type s).bind (fun r => r.value)) :
    (refresh_props sport fetch resolver
        (refresh_props sport fetch resolver props)).map
        (fun q => (q.current_value, q.prop_status))
      = (refresh_props sport fetch resolver props).map
          (fun q => (q.current_value, q.prop_status)) := by
  unfold refresh_props
  rw [List.map_map, List.map_map, List.map_map]
  apply List.map_congr_left
  intro p hp
  simp only [Function.comp]
  rw [refreshOne_game_id]
  cases hf : fetch p.game_id with
  | none => simp [refreshOne]
  | some s =>
    simp only [refreshOne]
    have hstat := updateProp_static sport resolver s p
    have hrv : resolvedValue resolver s (updateProp sport resolver s p)
        = resolvedValue resolver s p := by
      unfold resolvedValue
      rw [hstat.1]
      by_cases hm : p.market_type ∈ teamMarkets
      · rw [if_pos hm, if_pos hm, hstat.2.1]
      · rw [if_neg hm, if_neg hm]
        exact hstable p hp s hf hm
    rw [Prod.mk.injEq]
    refine ⟨?_, ?_⟩
    · rw [updateProp_value, updateProp_value, hrv, hstat.1]
    · rw [updateProp_status, updateProp_status, hrv]
      exact compute_prop_status_congr _ _ _ _ hstat.2.1 hstat.2.2.1 hstat.1

/-- Witness for the amended C9: a resolver that ignores the stored player name
is trivially rewrite-stable, and refreshing the demo batch twice agrees with
refreshing it once. -/
theorem refresh_idempotent_stable_witness :
    (refresh_props "nfl" demoFetch mcResolver
        (refresh_props "nfl" demoFetch mcResolver [propGameA, propGameB])).map
        (fun q => (q.current_value, q.prop_status))
      = (refresh_props "nfl" demoFetch mcResolver [propGameA, propGameB]).map
          (fun q => (q.current_value, q.prop_status)) :=
  refresh_idempotent_stable "nfl" demoFetch mcResolver [propGameA, propGameB]
    (fun _ _ _ _ _ => rfl)

/-- The Smith snapshot: "Alan Smith" has 50 rushing yards, "Bob Smith" has 30
receiving yards; the game is in progress. -/
def statsSmith : Stats :=
  { game_state := "in",
    boxscore_players :=
      [ { team_name := "Team X",
          statistics :=
            [ { name := "rushing", keys := ["rushingYards"], labels := ["YDS"],
                athletes :=
                  [ { displayName := "Alan Smith",
                      stats := [RawStat.num 50] } ] },
              { name := "receiving", keys := ["receivingYards"],
                labels := ["YDS"],
                athletes :=
                  [ { displayName := "Bob Smith",
                      stats := [RawStat.num 30] } ] } ] } ] }

/-- A combined rushing+receiving wager placed under the bare name "Smith". -/
def smithProp : PlayerProp :=
  { mkProp "rushing_receiving_yards" "over" 60 with
    player_name := "Smith"
    game_id := "gS" }

/-- The unchanged-snapshot provider for the Smith game. -/
def smithFetch : String → Option Stats := fun _ => some statsSmith

/-- The NFL dispatch of refresh: the concrete `get_nfl_player_stat` resolver
(with an empty roster fallback). -/
def nflResolver : Resolver :=
  fun pn mt s => get_nfl_player_stat (fun _ => []) s pn mt

/-- Counterexample to claim C9 as stated: the first refresh resolves "Smith"
to 50 + 30 = 80 (rushing from Alan Smith, receiving from Bob Smith) and
rewrites the stored name to "Alan Smith"; the second refresh then only
matches Alan Smith, loses Bob Smith's receiving yards, and stores 50 — both
current_value and settlement_status change between the two runs. -/
theorem refresh_idempotence_counterexample :
    (refresh_props "nfl" smithFetch nflResolver [smithProp]).map
        (fun q => (q.current_value, q.prop_status, q.player_name))
      = [(some 80, "live_hit", "Alan Smith")]
    ∧ (refresh_props "nfl" smithFetch nflResolver
        (refresh_props "nfl" smithFetch nflResolver [smithProp])).map
        (fun q => (q.current_value, q.prop_status, q.player_name))
      = [(some 50, "live_miss", "Alan Smith")] := by
  have hr1 : nflResolver smithProp.player_name smithProp.market_type statsSmith
      = some { value := some 80, team := some "Team X",
               player := some "Alan Smith", display_value := none } := by
    have hA : nflStandardStat statsSmith "Smith" "rushing_yards"
        = some { value := some 50, team := some "Team X",
                 player := some "Alan Smith", display_value := none } := by
      decide
    have hB : nflStandardStat statsSmith "Smith" "receiving_yards"
        = some { value := some 30, team := some "Team X",
                 player := some "Bob Smith", display_value := none } := by
      decide
    show get_nfl_player_stat (fun _ => []) statsSmith "Smith"
        "rushing_receiving_yards" = _
    rw [get_nfl_player_stat, if_pos (by decide), hA, hB]
    simp
    norm_num
  have hstep1 : updateProp "nfl" nflResolver statsSmith smithProp
      = { smithProp with
          player_name := "Alan Smith"
          current_value := some 80
          game_state := "in"
          game_status_text := ""
          prop_status := "live_hit" } := by
    rw [updateProp, if_neg (by decide), hr1]
    decide
  have hr2 : nflResolver "Alan Smith" smithProp.market_type statsSmith
      = some { value := some 50, team := some "Team X",
               player := some "Alan Smith", display_value := none } := by
    have hC : nflStandardStat statsSmith "Alan Smith" "rushing_yards"
        = some { value := some 50, team := some "Team X",
                 player := some "Alan Smith", display_value := none } := by
      decide
    have hD : nflStandardStat statsSmith "Alan Smith" "receiving_yards"
        = none := by decide
    show get_nfl_player_stat (fun _ => []) statsSmith "Alan Smith"
        "rushing_receiving_yards" = _
    rw [get_nfl_player_stat, if_pos (by decide), hC, hD]
    simp
  have hstep2 : updateProp "nfl" nflResolver statsSmith
      ({ smithProp with
          player_name := "Alan Smith"
          current_value := some 80
          game_state := "in"
          game_status_text := ""
          prop_status := "live_hit" })
      = { smithProp with
          player_name := "Alan Smith"
          current_value := some 50
          game_state := "in"
          game_status_text := ""
          prop_status := "live_miss" } := by
    rw [updateProp, if_neg (by decide), hr2]
    decide
  constructor
  · simp only [refresh_props, smithFetch, refreshOne, List.map_cons,
      List.map_nil]
    rw [hstep1]
  · simp only [refresh_props, smithFetch, refreshOne, List.map_cons,
      List.map_nil]
    rw [hstep1, hstep2]
